import Mathlib

/-!
Shallow embedding of the product-catalog controllers of the Ecbackend
repository (`controllers/productController.js`, generated by
`src/script_3.py`): the query planner `getProducts`, the partial update
`updateProduct`, and the review aggregator `createProductReview`.

JavaScript numbers are modelled as exact rationals, with `NaN` as an
explicit extra value (`JsNum.nan`); the arithmetic used by the controllers
(addition, one division by a positive review count, `parseInt`/`parseFloat`
coercions, ordering of parsed price bounds) stays inside this fragment.
-/

/-- A JavaScript number: either `NaN` or an (exact) rational value. -/
inductive JsNum where
  | nan : JsNum
  | num : ℚ → JsNum
deriving DecidableEq, Repr

namespace JsNum

/-- JS `+` on numbers: `NaN` is absorbing. -/
def jsAdd : JsNum → JsNum → JsNum
  | nan, _ => nan
  | _, nan => nan
  | num a, num b => num (a + b)

/-- JS `/` on numbers, restricted to the uses in this code (the divisor is a
review count `>= 1`); a zero divisor is mapped to `nan` (never exercised). -/
def jsDiv : JsNum → JsNum → JsNum
  | nan, _ => nan
  | _, nan => nan
  | num a, num b => if b = 0 then nan else num (a / b)

/-- JS `<=` on numbers: any comparison with `NaN` is false. -/
def jsLe : JsNum → JsNum → Bool
  | num a, num b => decide (a ≤ b)
  | _, _ => false

theorem jsDiv_num_num (a b : ℚ) :
    jsDiv (num a) (num b) = if b = 0 then nan else num (a / b) := rfl

end JsNum

deriving instance DecidableEq for Except

/-- A review subdocument as built by `createProductReview`:
`{ name, rating: Number(rating), comment, user }`. -/
structure Review where
  name : String
  rating : JsNum
  comment : String
  user : String
deriving DecidableEq, Repr

/-- The Product document (fields used by the three controllers). -/
structure Product where
  name : String := ""
  description : String := ""
  price : ℚ := 0
  discountPrice : Option ℚ := none
  images : List String := []
  category : String := ""
  brand : String := ""
  stock : Int := 0
  specifications : List (String × String) := []
  tags : List String := []
  featured : Bool := false
  status : String := "active"
  ratings : JsNum := JsNum.num 0
  numOfReviews : Nat := 0
  reviews : List Review := []
  createdBy : String := ""
deriving DecidableEq, Repr

/-- Domain results of `createProductReview`: the controller's distinct
response branches (`sendNotFound`, the 400 "Product already reviewed"
response, and the generic catch-all server error). -/
inductive ReviewError where
  | notFound : ReviewError
  | duplicateReview : ReviewError
  | serverError : ReviewError
deriving DecidableEq, Repr

/-- `createProductReview` (productController.js): fetch the product (here the
fetched snapshot is the `Option Product` argument), reject a duplicate
reviewer, append the review, recompute `numOfReviews` and `ratings` from the
post-append list, and return the document to be saved. -/
def createProductReview (userId userName : String) (rating : JsNum)
    (comment : String) : Option Product → Except ReviewError Product
  | none => .error .notFound
  | some p =>
    if p.reviews.any (fun r => r.user == userId) then
      .error .duplicateReview
    else
      let review : Review :=
        { name := userName, rating := rating, comment := comment, user := userId }
      let reviews := p.reviews ++ [review]
      let numOfReviews := reviews.length
      let ratings :=
        JsNum.jsDiv (reviews.foldl (fun acc item => JsNum.jsAdd item.rating acc) (JsNum.num 0))
          (JsNum.num (reviews.length : ℚ))
      .ok { p with reviews := reviews, numOfReviews := numOfReviews, ratings := ratings }

/-- Arithmetic mean of a list of rationals, `0` on the empty list (the
spec's definition of the ratings aggregate). -/
def ratingMeanQ (l : List ℚ) : ℚ :=
  if l = [] then 0 else l.sum / (l.length : ℚ)

/-- A fresh product with no reviews, used for concrete scenarios. -/
def freshProduct : Product :=
  { name := "Widget", price := 10, category := "cat1", brand := "Acme",
    createdBy := "admin" }

/-- Three successive review submissions (ratings 5, 3, 4 by distinct users)
on a fresh product, each one reading the state the previous write left. -/
def afterThreeReviews : Except ReviewError Product :=
  (createProductReview "u1" "Alice" (JsNum.num 5) "great" (some freshProduct)).bind
    (fun p => (createProductReview "u2" "Bob" (JsNum.num 3) "ok" (some p)).bind
      (fun p' => createProductReview "u3" "Cara" (JsNum.num 4) "good" (some p')))

section C1Lemmas

/-- The controller's `reduce((acc, item) => item.rating + acc, 0)` over a
review list whose ratings are the rationals `qs` computes `acc + qs.sum`. -/
theorem foldl_jsAdd_ratings (rs : List Review) (qs : List ℚ) (a : ℚ)
    (h : rs.map Review.rating = qs.map JsNum.num) :
    rs.foldl (fun acc item => JsNum.jsAdd item.rating acc) (JsNum.num a)
      = JsNum.num (a + qs.sum) := by
  induction rs generalizing qs a with
  | nil =>
    cases qs with
    | nil => simp
    | cons q qs => simp at h
  | cons r rs ih =>
    cases qs with
    | nil => simp at h
    | cons q qs =>
      simp only [List.map_cons, List.cons.injEq] at h
      obtain ⟨hr, hrs⟩ := h
      rw [List.foldl_cons, hr]
      have hadd : JsNum.jsAdd (JsNum.num q) (JsNum.num a) = JsNum.num (q + a) := rfl
      rw [hadd, ih qs (q + a) hrs, List.sum_cons]
      congr 1
      ring

end C1Lemmas

/-- The product state after the single review `(u1, Alice, 5, "great")` on
`freshProduct`, as computed by `createProductReview`. -/
def afterOneReview : Product :=
  { freshProduct with
    reviews := [{ name := "Alice", rating := JsNum.num 5, comment := "great", user := "u1" }],
    numOfReviews := 1,
    ratings := JsNum.num 5 }

/-- C1: after every successful `createProductReview` write, `numOfReviews`
equals the length of the post-append review list and `ratings` is the exact
arithmetic mean of the post-append ratings; in particular three reviews with
ratings 5, 3, 4 on a fresh product yield `numOfReviews = 3` and
`ratings = 4` exactly. -/
theorem createProductReview_aggregate_invariant :
    (∀ (uid uname comment : String) (q : ℚ) (qs : List ℚ) (p p' : Product),
        p.reviews.map Review.rating = qs.map JsNum.num →
        createProductReview uid uname (JsNum.num q) comment (some p) = .ok p' →
        p'.numOfReviews = p'.reviews.length ∧
        p'.reviews.map Review.rating = (qs ++ [q]).map JsNum.num ∧
        p'.ratings = JsNum.num (ratingMeanQ (qs ++ [q]))) ∧
    afterThreeReviews.map Product.numOfReviews = .ok 3 ∧
    afterThreeReviews.map (fun p => p.reviews.length) = .ok 3 ∧
    afterThreeReviews.map Product.ratings = .ok (JsNum.num 4) := by
  refine ⟨?_, ?_, ?_, ?_⟩
  case refine_2 =>
    norm_num +decide [afterThreeReviews, createProductReview, freshProduct,
      JsNum.jsAdd, JsNum.jsDiv, Except.bind, Except.map]
  case refine_3 =>
    norm_num +decide [afterThreeReviews, createProductReview, freshProduct,
      JsNum.jsAdd, JsNum.jsDiv, Except.bind, Except.map]
  case refine_4 =>
    norm_num +decide [afterThreeReviews, createProductReview, freshProduct,
      JsNum.jsAdd, JsNum.jsDiv, Except.bind, Except.map]
  intro uid uname comment q qs p p' hq h
  by_cases hdup : (p.reviews.any fun r => r.user == uid) = true
  · simp [createProductReview, hdup] at h
  · simp only [createProductReview, hdup, Bool.false_eq_true, if_false, reduceCtorEq,
      if_neg, Except.ok.injEq] at h
    subst h
    refine ⟨rfl, ?_, ?_⟩
    · simp [hq]
    · have hmap : (p.reviews ++
          [({ name := uname, rating := JsNum.num q, comment := comment,
              user := uid } : Review)]).map Review.rating
            = (qs ++ [q]).map JsNum.num := by simp [hq]
      have hsum := foldl_jsAdd_ratings _ (qs ++ [q]) 0 hmap
      have hlen : (p.reviews ++
          [({ name := uname, rating := JsNum.num q, comment := comment,
              user := uid } : Review)]).length = qs.length + 1 := by
        have := congrArg List.length hmap
        simpa using this
      have hne : (((qs.length + 1 : ℕ) : ℚ)) ≠ 0 := by positivity
      rw [hsum, hlen, JsNum.jsDiv_num_num, if_neg hne]
      have hmean : ratingMeanQ (qs ++ [q])
          = (0 + (qs ++ [q]).sum) / ((qs.length + 1 : ℕ) : ℚ) := by
        unfold ratingMeanQ
        rw [if_neg (by simp)]
        rw [zero_add]
        congr 1
        simp
      rw [hmean]

/-- Witness for C1: the aggregate invariant instantiated at one concrete
review on a fresh product. -/
theorem createProductReview_aggregate_invariant_witness :
    afterOneReview.numOfReviews = afterOneReview.reviews.length ∧
    afterOneReview.reviews.map Review.rating = (([] : List ℚ) ++ [5]).map JsNum.num ∧
    afterOneReview.ratings = JsNum.num (ratingMeanQ (([] : List ℚ) ++ [5])) :=
  createProductReview_aggregate_invariant.1 "u1" "Alice" "great" 5 [] freshProduct
    afterOneReview (by decide)
    (by norm_num +decide [createProductReview, freshProduct, afterOneReview,
      JsNum.jsAdd, JsNum.jsDiv])

/-- A product already reviewed by user `u1`. -/
def dupProduct : Product :=
  { freshProduct with
    reviews := [{ name := "Alice", rating := JsNum.num 5, comment := "great", user := "u1" }],
    numOfReviews := 1,
    ratings := JsNum.num 5 }

/-- C2: when the product already holds a review by the caller,
`createProductReview` fails with the distinct duplicate-review response
(distinguishable from the generic server error and from not-found) and never
produces an updated document to save. -/
theorem createProductReview_duplicate_rejected
    (uid uname comment : String) (rating : JsNum) (p : Product)
    (h : ∃ r ∈ p.reviews, r.user = uid) :
    createProductReview uid uname rating comment (some p)
        = .error .duplicateReview ∧
    (∀ p', createProductReview uid uname rating comment (some p) ≠ .ok p') ∧
    ReviewError.duplicateReview ≠ ReviewError.serverError ∧
    ReviewError.duplicateReview ≠ ReviewError.notFound := by
  have hdup : (p.reviews.any fun r => r.user == uid) = true := by
    obtain ⟨r, hr, hu⟩ := h
    exact List.any_eq_true.mpr ⟨r, hr, by simp [hu]⟩
  refine ⟨?_, ?_, by decide, by decide⟩
  · simp [createProductReview, hdup]
  · intro p' hcontra
    simp [createProductReview, hdup] at hcontra

/-- Witness for C2: a second submission by `u1` on a product it already
reviewed is rejected as a duplicate. -/
theorem createProductReview_duplicate_rejected_witness :
    (∃ r ∈ dupProduct.reviews, r.user = "u1") ∧
    createProductReview "u1" "Alice" (JsNum.num 2) "again" (some dupProduct)
        = .error .duplicateReview :=
  ⟨⟨{ name := "Alice", rating := JsNum.num 5, comment := "great", user := "u1" },
      by decide, rfl⟩,
    (createProductReview_duplicate_rejected "u1" "Alice" "again" (JsNum.num 2) dupProduct
      ⟨{ name := "Alice", rating := JsNum.num 5, comment := "great", user := "u1" },
        by decide, rfl⟩).1⟩

/-- C3 (refuting evidence): `createProductReview` performs no rating
validation. A rating of `7`, outside `[1,5]`, is accepted: the call succeeds,
the review enters the list, and `ratings` becomes `7` — no `InvalidInput`
rejection exists anywhere in the controller (`ReviewError` has no such
branch because the source has no such response). -/
theorem createProductReview_no_rating_validation :
    (createProductReview "u1" "Alice" (JsNum.num 7) "wow" (some freshProduct)).map
        (fun p => p.reviews.map Review.rating) = .ok [JsNum.num 7] ∧
    (createProductReview "u1" "Alice" (JsNum.num 7) "wow" (some freshProduct)).map
        Product.ratings = .ok (JsNum.num 7) ∧
    (createProductReview "u1" "Alice" (JsNum.num 7) "wow" (some freshProduct)).map
        Product.numOfReviews = .ok 1 := by
  refine ⟨?_, ?_, ?_⟩ <;>
    norm_num +decide [createProductReview, freshProduct, JsNum.jsAdd, JsNum.jsDiv,
      Except.map]

/-- Two review submissions interleaved as fetch, fetch, save, save: both
calls are computed from the same pre-state snapshot — exactly the unguarded
read-modify-write of `createProductReview`, whose fetch (`findById`) and
save carry no version guard — and the later save overwrites the earlier
one. -/
def interleavedPair (c1 c2 : Option Product → Except ReviewError Product)
    (s0 : Option Product) :
    Except ReviewError Product × Except ReviewError Product × Option Product :=
  let r1 := c1 s0
  let r2 := c2 s0
  let s1 := match r1 with | .ok p => some p | .error _ => s0
  let s2 := match r2 with | .ok p => some p | .error _ => s1
  (r1, r2, s2)

/-- C4 (refuting evidence): the unguarded fetch-then-save sequence of
`createProductReview` is not per-document serializable. Under the
fetch, fetch, save, save interleaving on a fresh product: two submissions by
the same user `u1` both succeed (instead of at most one), and two
submissions by distinct users `u1`, `u2` both succeed yet leave
`numOfReviews = 1` — the first write is lost instead of ending at `N = 2`
with the mean of both ratings. -/
theorem createProductReview_race_not_serializable :
    ((interleavedPair (createProductReview "u1" "Alice" (JsNum.num 5) "a")
        (createProductReview "u1" "Alice" (JsNum.num 3) "b")
        (some freshProduct)).1.isOk = true) ∧
    ((interleavedPair (createProductReview "u1" "Alice" (JsNum.num 5) "a")
        (createProductReview "u1" "Alice" (JsNum.num 3) "b")
        (some freshProduct)).2.1.isOk = true) ∧
    ((interleavedPair (createProductReview "u1" "Alice" (JsNum.num 5) "a")
        (createProductReview "u1" "Alice" (JsNum.num 3) "b")
        (some freshProduct)).2.2.map Product.numOfReviews = some 1) ∧
    ((interleavedPair (createProductReview "u1" "Alice" (JsNum.num 5) "a")
        (createProductReview "u2" "Bob" (JsNum.num 3) "b")
        (some freshProduct)).1.isOk = true) ∧
    ((interleavedPair (createProductReview "u1" "Alice" (JsNum.num 5) "a")
        (createProductReview "u2" "Bob" (JsNum.num 3) "b")
        (some freshProduct)).2.1.isOk = true) ∧
    ((interleavedPair (createProductReview "u1" "Alice" (JsNum.num 5) "a")
        (createProductReview "u2" "Bob" (JsNum.num 3) "b")
        (some freshProduct)).2.2.map Product.numOfReviews = some 1) := by
  refine ⟨?_, ?_, ?_, ?_, ?_, ?_⟩ <;>
    norm_num +decide [interleavedPair, createProductReview, freshProduct,
      JsNum.jsAdd, JsNum.jsDiv, Except.isOk, Option.map]

/-! ## Query planner (`getProducts`) -/

/-- Value of a maximal run of leading decimal digits; `none` when there is
no leading digit. -/
def digitsOf (cs : List Char) : Option Nat :=
  let ds := cs.takeWhile Char.isDigit
  if ds.isEmpty then none
  else some (ds.foldl (fun a c => a * 10 + (c.toNat - 48)) 0)

/-- JS `parseInt` on the decimal fragment exercised by query strings: skip
leading spaces, optional sign, then a maximal digit run; `none` models the
`NaN` result (no digits, or a missing argument handled by the caller). -/
def jsParseInt (s : String) : Option Int :=
  let cs := s.data.dropWhile (fun c => c = ' ')
  match cs with
  | '-' :: rest => (digitsOf rest).map (fun n => -(n : Int))
  | '+' :: rest => (digitsOf rest).map (fun n => (n : Int))
  | _ => (digitsOf cs).map (fun n => (n : Int))

/-- JS `parseFloat` on the decimal fragment (sign, integer digits, optional
fraction digits); `JsNum.nan` when no digit is found. -/
def jsParseFloat (s : String) : JsNum :=
  let cs := s.data.dropWhile (fun c => c = ' ')
  let signed : ℚ × List Char :=
    match cs with
    | '-' :: rest => (-1, rest)
    | '+' :: rest => (1, rest)
    | _ => (1, cs)
  let ds := signed.2.takeWhile Char.isDigit
  let rest := signed.2.drop ds.length
  let fs : List Char :=
    match rest with
    | '.' :: r => r.takeWhile Char.isDigit
    | _ => []
  if ds.isEmpty && fs.isEmpty then JsNum.nan
  else
    let ip : ℚ := ((ds.foldl (fun a c => a * 10 + (c.toNat - 48)) 0 : ℕ) : ℚ)
    let fp : ℚ := ((fs.foldl (fun a c => a * 10 + (c.toNat - 48)) 0 : ℕ) : ℚ)
        / ((10 ^ fs.length : ℕ) : ℚ)
    JsNum.num (signed.1 * (ip + fp))

/-- The raw query-string parameter bag of `getProducts` (`req.query`):
every parameter is an optional string. -/
structure QueryParams where
  page : Option String := none
  limit : Option String := none
  category : Option String := none
  brand : Option String := none
  featured : Option String := none
  status : Option String := none
  minPrice : Option String := none
  maxPrice : Option String := none
  search : Option String := none
  sort : Option String := none
deriving DecidableEq, Repr

/-- JS truthiness of an optional query-string value: absent (`undefined`)
and the empty string are falsy, every other string is truthy. -/
def optTruthy : Option String → Option String
  | none => none
  | some s => if s = "" then none else some s

/-- `const page = parseInt(req.query.page) || 1`: `parseInt` of a missing
parameter is `NaN`; `NaN` and `0` are falsy and fall back to `1`; every
other parsed value — negative values included — is kept. -/
def pageOf (ps : QueryParams) : Int :=
  match ps.page with
  | none => 1
  | some s =>
    match jsParseInt s with
    | none => 1
    | some n => if n = 0 then 1 else n

/-- `const limit = parseInt(req.query.limit) || 12`. -/
def limitOf (ps : QueryParams) : Int :=
  match ps.limit with
  | none => 12
  | some s =>
    match jsParseInt s with
    | none => 12
    | some n => if n = 0 then 12 else n

/-- `const skip = (page - 1) * limit`. -/
def skipOf (ps : QueryParams) : Int := (pageOf ps - 1) * limitOf ps

/-- Token of the regular-expression fragment modelled for
`new RegExp(req.query.brand, 'i')`: a literal character or the `.`
wildcard. -/
inductive RToken where
  | dot : RToken
  | lit : Char → RToken
deriving DecidableEq, Repr

/-- Characters with a special meaning in a JS regular expression. -/
def isRegexMeta (c : Char) : Bool :=
  c ∈ ['.', '\\', '^', '$', '|', '?', '*', '+', '(', ')', '[', ']',
    Char.ofNat 123, Char.ofNat 125]

/-- Compile a pattern on the fragment whose only metacharacter is `.`;
patterns using any other metacharacter are outside the model (`none`). -/
def compileAux : List Char → Option (List RToken)
  | [] => some []
  | c :: cs =>
    if c = '.' then (compileAux cs).map (RToken.dot :: ·)
    else if isRegexMeta c then none
    else (compileAux cs).map (RToken.lit c :: ·)

/-- Modelled from JS `new RegExp(pattern)` construction on the dot-literal
fragment. -/
def compilePattern (s : String) : Option (List RToken) := compileAux s.data

/-- Match a token list against a prefix of `cs`, case-insensitively (the
`i` flag): `.` consumes any character, a literal compares lower-cased. -/
def matchToks : List RToken → List Char → Bool
  | [], _ => true
  | _ :: _, [] => false
  | RToken.dot :: ts, _ :: cs => matchToks ts cs
  | RToken.lit c :: ts, d :: cs => (c.toLower == d.toLower) && matchToks ts cs

/-- Unanchored search, as JS `RegExp.prototype.test`: try every start
position. -/
def searchToks (ts : List RToken) : List Char → Bool
  | [] => matchToks ts []
  | c :: cs => matchToks ts (c :: cs) || searchToks ts cs

/-- `new RegExp(pattern, 'i').test(s)` on the modelled fragment. -/
def jsRegexTestI (pattern s : String) : Option Bool :=
  (compilePattern pattern).map (fun ts => searchToks ts s.data)

/-- Case-insensitive literal substring test — the spec-side notion of
"case-insensitive substring match" for the brand filter. -/
def containsCI (pat s : String) : Bool :=
  searchToks (pat.data.map RToken.lit) s.data

/-- The filter object `getProducts` builds and hands to the store: each
truthy parameter contributes one predicate; `status` defaults to
`"active"`; the price bounds are raw `parseFloat` results (possibly
`NaN`). -/
structure ProductQuery where
  category : Option String := none
  brand : Option String := none
  featured : Option Bool := none
  status : String := "active"
  priceGte : Option JsNum := none
  priceLte : Option JsNum := none
  search : Option String := none
deriving DecidableEq, Repr

/-- `getProducts` filter construction (productController.js, the
`let query = {}` block): translate the parameter bag into the filter
object. -/
def buildQuery (ps : QueryParams) : ProductQuery :=
  { category := optTruthy ps.category
    brand := optTruthy ps.brand
    featured := (optTruthy ps.featured).map (fun s => s == "true")
    status := (optTruthy ps.status).getD "active"
    priceGte := (optTruthy ps.minPrice).map jsParseFloat
    priceLte := (optTruthy ps.maxPrice).map jsParseFloat
    search := optTruthy ps.search }

/-- Modelled from the spec: the store's text search over
name/description/tags (§4.1 `search`); not exercised by any claim below
(the `search` parameter is absent in all of them). -/
def textMatch (s : String) (p : Product) : Bool :=
  containsCI s p.name || containsCI s p.description ||
    p.tags.any (fun t => containsCI s t)

/-- Modelled from the spec: the document store's evaluation of the filter
object built by `buildQuery` against one product — the conjunction of the
per-field predicates of §4.1; a price bound that is `NaN` matches no
numeric price (IEEE comparison), and a brand pattern outside the modelled
regex fragment matches nothing (never exercised below). -/
def matchesQuery (q : ProductQuery) (p : Product) : Bool :=
  (match q.category with | none => true | some c => p.category == c) &&
  (match q.brand with
    | none => true
    | some pat => (jsRegexTestI pat p.brand).getD false) &&
  (match q.featured with | none => true | some b => p.featured == b) &&
  (p.status == q.status) &&
  (match q.priceGte with
    | none => true
    | some b => JsNum.jsLe b (JsNum.num p.price)) &&
  (match q.priceLte with
    | none => true
    | some b => JsNum.jsLe (JsNum.num p.price) b) &&
  (match q.search with | none => true | some s => textMatch s p)

/-- `.skip(skip).limit(limit)` over the sorted, filtered result list
(modelled for nonnegative skip and limit; the store rejects a negative
skip). -/
def execPage (sorted : List Product) (ps : QueryParams) : List Product :=
  (sorted.drop (skipOf ps).toNat).take (limitOf ps).toNat

theorem toNat_five : '5'.toNat = 53 := by decide

theorem toNat_nine : '9'.toNat = 57 := by decide

theorem toNat_zero : '0'.toNat = 48 := by decide

theorem jsParseFloat_fifty : jsParseFloat "50" = JsNum.num 50 := by
  norm_num +decide [jsParseFloat, toNat_five, toNat_zero]

theorem jsParseFloat_ninety : jsParseFloat "90" = JsNum.num 90 := by
  norm_num +decide [jsParseFloat, toNat_nine, toNat_zero]

/-- C5 (refuting evidence): malformed numeric parameters do not all fail
closed. `page` and `limit` do (their `|| default` catches `NaN`), but a
malformed `minPrice`/`maxPrice` passes its truthiness check (any non-empty
string is truthy) and its `parseFloat` result — `NaN` — is stored as the
`$gte`/`$lte` operand of the price filter forwarded to the store. -/
theorem getProducts_nan_price_forwarded :
    pageOf { page := some "abc" } = 1 ∧
    limitOf { limit := some "xyz" } = 12 ∧
    jsParseFloat "abc" = JsNum.nan ∧
    (buildQuery { minPrice := some "abc" }).priceGte = some JsNum.nan ∧
    (buildQuery { maxPrice := some "-" }).priceLte = some JsNum.nan := by
  refine ⟨?_, ?_, ?_, ?_, ?_⟩ <;> decide

/-- C6 (counterexample): the page parameter has no floor of 1. A negative
page value is truthy and passes `parseInt(page) || 1` unchanged, so the
effective page is `-5` and the computed skip, `(-5 - 1) * 12`, is
negative — contradicting "the effective page is always >= 1, so skip is
never negative". -/
theorem getProducts_negative_page_counterexample :
    pageOf { page := some "-5" } = -5 ∧
    skipOf { page := some "-5" } = -72 ∧ (-72 : Int) < 0 := by
  refine ⟨?_, ?_, ?_⟩ <;> decide

/-- C6 (amended): `page` defaults to 1 when absent, unparsable, or parsed
as 0, and any other parsed value — negative included — is kept (no floor);
`limit` defaults to 12 likewise; `skip = (page - 1) * limit`; and the
returned page is a prefix of the sorted result with the first `skip` items
removed, holding at most `limit` items. -/
theorem getProducts_pagination (ps : QueryParams) (sorted : List Product) :
    (ps.page = none → pageOf ps = 1) ∧
    (∀ s, ps.page = some s → jsParseInt s = none → pageOf ps = 1) ∧
    (∀ s, ps.page = some s → jsParseInt s = some 0 → pageOf ps = 1) ∧
    (∀ s n, ps.page = some s → jsParseInt s = some n → n ≠ 0 → pageOf ps = n) ∧
    (ps.limit = none → limitOf ps = 12) ∧
    (∀ s, ps.limit = some s → jsParseInt s = none → limitOf ps = 12) ∧
    skipOf ps = (pageOf ps - 1) * limitOf ps ∧
    (execPage sorted ps).length ≤ (limitOf ps).toNat ∧
    execPage sorted ps <+: sorted.drop (skipOf ps).toNat := by
  refine ⟨?_, ?_, ?_, ?_, ?_, ?_, rfl, ?_, ?_⟩
  · intro h; simp [pageOf, h]
  · intro s hs hp; simp [pageOf, hs, hp]
  · intro s hs hp; simp [pageOf, hs, hp]
  · intro s n hs hp hn; simp [pageOf, hs, hp, hn]
  · intro h; simp [limitOf, h]
  · intro s hs hp; simp [limitOf, hs, hp]
  · exact le_trans (List.length_take_le _ _) le_rfl
  · exact List.take_prefix _ _

/-- Witness for C6 (amended): a malformed page falls back to 1; the
defaults and the page-size bound at the empty parameter bag. -/
theorem getProducts_pagination_witness :
    pageOf { page := some "abc" } = 1 ∧
    limitOf ({} : QueryParams) = 12 ∧
    (execPage [] ({} : QueryParams)).length ≤ (limitOf ({} : QueryParams)).toNat :=
  ⟨(getProducts_pagination { page := some "abc" } []).2.1 "abc" rfl (by decide),
    (getProducts_pagination ({} : QueryParams) []).2.2.2.2.1 rfl,
    (getProducts_pagination ({} : QueryParams) []).2.2.2.2.2.2.2.1⟩

/-- C7: with `minPrice`/`maxPrice` supplied (parsing to rationals `a`, `b`),
the listing filter is the inclusive range `a ≤ price ≤ b` on the `price`
field, conjoined only with the default `status = "active"`; either bound
may be present alone; `discountPrice` is never consulted (changing it never
changes the match); and a product with price 100 and discountPrice 80 is
excluded by `minPrice=50&maxPrice=90`. -/
theorem getProducts_price_filter (mi ma : String) (a b : ℚ) (p : Product)
    (hmi : jsParseFloat mi = JsNum.num a) (hma : jsParseFloat ma = JsNum.num b)
    (hmi0 : mi ≠ "") (hma0 : ma ≠ "") :
    (matchesQuery (buildQuery { minPrice := some mi, maxPrice := some ma }) p = true ↔
      (a ≤ p.price ∧ p.price ≤ b ∧ p.status = "active")) ∧
    (∀ d, matchesQuery (buildQuery { minPrice := some mi, maxPrice := some ma })
          { p with discountPrice := d }
        = matchesQuery (buildQuery { minPrice := some mi, maxPrice := some ma }) p) ∧
    (matchesQuery (buildQuery { minPrice := some mi }) p = true ↔
      (a ≤ p.price ∧ p.status = "active")) ∧
    (matchesQuery (buildQuery { maxPrice := some ma }) p = true ↔
      (p.price ≤ b ∧ p.status = "active")) ∧
    matchesQuery (buildQuery { minPrice := some "50", maxPrice := some "90" })
        { p with price := 100, discountPrice := some 80 } = false := by
  refine ⟨?_, fun d => rfl, ?_, ?_, ?_⟩
  · simp [matchesQuery, buildQuery, optTruthy, hmi0, hma0, hmi, hma, JsNum.jsLe,
      and_assoc]
    tauto
  · simp [matchesQuery, buildQuery, optTruthy, hmi0, hmi, JsNum.jsLe, and_assoc]
    tauto
  · simp [matchesQuery, buildQuery, optTruthy, hma0, hma, JsNum.jsLe, and_assoc]
    tauto
  · simp [matchesQuery, buildQuery, optTruthy, jsParseFloat_fifty, jsParseFloat_ninety,
      JsNum.jsLe]
    exact fun _ _ => by norm_num

/-- Witness for C7: a price-70 product sits inside the range 50–90; the
concrete price-100/discount-80 product is excluded. -/
theorem getProducts_price_filter_witness :
    (matchesQuery (buildQuery { minPrice := some "50", maxPrice := some "90" })
        freshProduct = true ↔
      ((50 : ℚ) ≤ freshProduct.price ∧ freshProduct.price ≤ 90 ∧
        freshProduct.status = "active")) ∧
    matchesQuery (buildQuery { minPrice := some "50", maxPrice := some "90" })
        { freshProduct with price := 100, discountPrice := some 80 } = false :=
  ⟨(getProducts_price_filter "50" "90" 50 90 freshProduct jsParseFloat_fifty
      jsParseFloat_ninety (by decide) (by decide)).1,
    (getProducts_price_filter "50" "90" 50 90 freshProduct jsParseFloat_fifty
      jsParseFloat_ninety (by decide) (by decide)).2.2.2.2⟩

section BrandLemmas

/-- A pattern free of metacharacters compiles to its literal tokens. -/
theorem compileAux_lit (cs : List Char) (h : ∀ c ∈ cs, isRegexMeta c = false) :
    compileAux cs = some (cs.map RToken.lit) := by
  induction cs with
  | nil => rfl
  | cons c cs ih =>
    have hc : isRegexMeta c = false := h c (by simp)
    have hdot : ¬(c = '.') := by
      intro hd
      subst hd
      simp [isRegexMeta] at hc
    simp only [compileAux, if_neg hdot, hc, Bool.false_eq_true, if_false, List.map_cons]
    rw [ih (fun d hd => h d (by simp [hd]))]
    rfl

/-- Matching literal tokens at the head is lower-cased prefix equality. -/
theorem matchToks_lit_iff (a cs : List Char) :
    matchToks (a.map RToken.lit) cs = true ↔
      ∃ r, cs.map Char.toLower = a.map Char.toLower ++ r := by
  induction a generalizing cs with
  | nil => simp [matchToks]
  | cons c a ih =>
    cases cs with
    | nil =>
      simp [matchToks]
    | cons d cs =>
      simp only [List.map_cons, matchToks, Bool.and_eq_true, beq_iff_eq, ih]
      constructor
      · rintro ⟨hc, r, hr⟩
        exact ⟨r, by simp [hr, hc]⟩
      · rintro ⟨r, hr⟩
        simp only [List.cons_append, List.cons.injEq] at hr
        exact ⟨hr.1.symm, r, hr.2⟩

/-- Unanchored search with literal tokens is lower-cased substring
containment. -/
theorem searchToks_lit_iff (a cs : List Char) :
    searchToks (a.map RToken.lit) cs = true ↔
      ∃ l r, cs.map Char.toLower = l ++ a.map Char.toLower ++ r := by
  induction cs with
  | nil =>
    simp only [searchToks, matchToks_lit_iff]
    constructor
    · rintro ⟨r, hr⟩
      exact ⟨[], r, by simpa using hr⟩
    · rintro ⟨l, r, hr⟩
      simp only [List.map_nil] at hr
      have hl : l = [] := by
        cases l with
        | nil => rfl
        | cons x xs => simp at hr
      subst hl
      exact ⟨r, by simpa using hr⟩
  | cons d cs ih =>
    simp only [searchToks, Bool.or_eq_true, matchToks_lit_iff, ih]
    constructor
    · rintro (⟨r, hr⟩ | ⟨l, r, hr⟩)
      · exact ⟨[], r, by simpa using hr⟩
      · exact ⟨d.toLower :: l, r, by simp [hr]⟩
    · rintro ⟨l, r, hr⟩
      cases l with
      | nil =>
        exact Or.inl ⟨r, by simpa using hr⟩
      | cons x xs =>
        simp only [List.map_cons, List.cons_append, List.cons.injEq] at hr
        exact Or.inr ⟨xs, r, hr.2⟩

end BrandLemmas

/-- A product branded `axc`. -/
def brandAxcProduct : Product := { freshProduct with brand := "axc" }

/-- C8 (counterexample): the brand parameter is not matched as plain text.
The parameter `a.c` is compiled as a regular expression, so its `.` matches
any character: the listing with `brand=a.c` keeps the product branded
`axc`, although `a.c` is not a (case-insensitive) literal substring of
`axc`. -/
theorem getProducts_brand_regex_counterexample :
    matchesQuery (buildQuery { brand := some "a.c" }) brandAxcProduct = true ∧
    ¬(∃ l r, "axc".data.map Char.toLower
        = l ++ "a.c".data.map Char.toLower ++ r) := by
  constructor
  · decide
  · rintro ⟨l, r, h⟩
    have hlen := congrArg List.length h
    simp only [List.length_map, List.length_append, List.length_cons,
      List.length_nil] at hlen
    have hl : l.length = 0 := by omega
    have hr : r.length = 0 := by omega
    have hl' : l = [] := List.length_eq_zero.mp hl
    have hr' : r = [] := List.length_eq_zero.mp hr
    subst hl'
    subst hr'
    simp only [List.nil_append, List.append_nil] at h
    exact absurd h (by decide)

/-- C8 (amended): for a brand parameter free of regex metacharacters the
filter is exactly case-insensitive literal substring containment on the
product's `brand` field (conjoined with the default `status = "active"`);
parameter strings containing metacharacter punctuation are instead
interpreted as regular expressions. -/
theorem getProducts_brand_filter (pat : String) (p : Product)
    (hmeta : ∀ c ∈ pat.data, isRegexMeta c = false) (hpat : pat ≠ "") :
    matchesQuery (buildQuery { brand := some pat }) p = true ↔
      ((∃ l r, p.brand.data.map Char.toLower
          = l ++ pat.data.map Char.toLower ++ r) ∧ p.status = "active") := by
  have hcomp : compilePattern pat = some (pat.data.map RToken.lit) :=
    compileAux_lit pat.data hmeta
  simp [matchesQuery, buildQuery, optTruthy, hpat, jsRegexTestI, hcomp,
    searchToks_lit_iff]

/-- Witness for C8 (amended): the metacharacter-free parameter `cm` keeps
the product branded `Acme` (a case-insensitive substring hit). -/
theorem getProducts_brand_filter_witness :
    matchesQuery (buildQuery { brand := some "cm" }) freshProduct = true ↔
      ((∃ l r, freshProduct.brand.data.map Char.toLower
          = l ++ "cm".data.map Char.toLower ++ r) ∧
        freshProduct.status = "active") :=
  getProducts_brand_filter "cm" freshProduct (by decide) (by decide)

/-! ## Partial update (`updateProduct`) -/

/-- The request body of `updateProduct`: every field optionally supplied.
Numeric values are JS numbers (so a supplied price may be any rational or
`NaN`); arrays and objects are JS values that are always truthy, even when
empty. -/
structure UpdateBody where
  name : Option String := none
  description : Option String := none
  price : Option JsNum := none
  discountPrice : Option JsNum := none
  images : Option (List String) := none
  category : Option String := none
  brand : Option String := none
  stock : Option Int := none
  specifications : Option (List (String × String)) := none
  tags : Option (List String) := none
  featured : Option Bool := none
  status : Option String := none
deriving DecidableEq, Repr

/-- `x || old` for an optional string: `undefined` and `""` are falsy. -/
def jsOrStr : Option String → String → String
  | none, old => old
  | some s, old => if s = "" then old else s

/-- `x || old` for an optional JS number: `undefined`, `0` and `NaN` are
falsy. -/
def jsOrNum : Option JsNum → ℚ → ℚ
  | none, old => old
  | some JsNum.nan, old => old
  | some (JsNum.num q), old => if q = 0 then old else q

/-- `x || old` for an optional JS number against an optional stored value
(`discountPrice` may be unset). -/
def jsOrNumOpt : Option JsNum → Option ℚ → Option ℚ
  | none, old => old
  | some JsNum.nan, old => old
  | some (JsNum.num q), old => if q = 0 then old else some q

/-- `x || old` for an optional array/object: any supplied value is truthy. -/
def jsOrAlways {α : Type} : Option α → α → α
  | none, old => old
  | some l, _ => l

/-- `updateProduct` field assignments (productController.js): `||`-update
for most fields, `x !== undefined ? x : old` for `stock` and `featured`;
the rest of the document (reviews, ratings, numOfReviews, createdBy) is
untouched and the whole document is saved. -/
def updateProduct (b : UpdateBody) (p : Product) : Product :=
  { p with
    name := jsOrStr b.name p.name
    description := jsOrStr b.description p.description
    price := jsOrNum b.price p.price
    discountPrice := jsOrNumOpt b.discountPrice p.discountPrice
    images := jsOrAlways b.images p.images
    category := jsOrStr b.category p.category
    brand := jsOrStr b.brand p.brand
    stock := b.stock.getD p.stock
    specifications := jsOrAlways b.specifications p.specifications
    tags := jsOrAlways b.tags p.tags
    featured := b.featured.getD p.featured
    status := jsOrStr b.status p.status }

/-- A stored product with price 100 and a non-empty description. -/
def stalePricedProduct : Product :=
  { freshProduct with price := 100, description := "durable" }

/-- C9 (counterexample): the update is not "every supplied field
overwrites". A supplied price of `0` is falsy, so `price || product.price`
keeps the stored 100 instead of writing 0; a supplied empty description is
likewise ignored. -/
theorem updateProduct_falsy_counterexample :
    (updateProduct { price := some (JsNum.num 0) } stalePricedProduct).price = 100 ∧
    (updateProduct { price := some (JsNum.num 0) } stalePricedProduct).price ≠ 0 ∧
    (updateProduct { description := some "" } stalePricedProduct).description
        = "durable" := by
  refine ⟨?_, ?_, ?_⟩ <;> decide

/-- C9 (amended): fields updated through `||` (name, description, price,
discountPrice, images, category, brand, specifications, tags, status)
overwrite only when the supplied value is truthy — a supplied falsy value
(0, NaN, "") is ignored and the stored value kept — while `stock` and
`featured` overwrite whenever supplied, falsy values included; fields not
supplied keep their stored values, and the review aggregate fields are
untouched. -/
theorem updateProduct_partial_semantics (b : UpdateBody) (p : Product) :
    (b.name = none → (updateProduct b p).name = p.name) ∧
    (∀ s, b.name = some s → s ≠ "" → (updateProduct b p).name = s) ∧
    (b.description = some "" → (updateProduct b p).description = p.description) ∧
    (∀ q, b.price = some (JsNum.num q) → q ≠ 0 → (updateProduct b p).price = q) ∧
    (b.price = some (JsNum.num 0) → (updateProduct b p).price = p.price) ∧
    (b.price = some JsNum.nan → (updateProduct b p).price = p.price) ∧
    (b.price = none → (updateProduct b p).price = p.price) ∧
    (∀ f, b.featured = some f → (updateProduct b p).featured = f) ∧
    (b.featured = none → (updateProduct b p).featured = p.featured) ∧
    (∀ n, b.stock = some n → (updateProduct b p).stock = n) ∧
    (b.stock = none → (updateProduct b p).stock = p.stock) ∧
    (b.status = none → (updateProduct b p).status = p.status) ∧
    (∀ l, b.tags = some l → (updateProduct b p).tags = l) ∧
    (updateProduct b p).reviews = p.reviews ∧
    (updateProduct b p).ratings = p.ratings ∧
    (updateProduct b p).numOfReviews = p.numOfReviews ∧
    (updateProduct b p).createdBy = p.createdBy := by
  refine ⟨?_, ?_, ?_, ?_, ?_, ?_, ?_, ?_, ?_, ?_, ?_, ?_, ?_, rfl, rfl, rfl, rfl⟩
  · intro h; simp [updateProduct, jsOrStr, h]
  · intro s hs hne; simp [updateProduct, jsOrStr, hs, hne]
  · intro h; simp [updateProduct, jsOrStr, h]
  · intro q hq hne; simp [updateProduct, jsOrNum, hq, hne]
  · intro h; simp [updateProduct, jsOrNum, h]
  · intro h; simp [updateProduct, jsOrNum, h]
  · intro h; simp [updateProduct, jsOrNum, h]
  · intro f hf; simp [updateProduct, hf]
  · intro h; simp [updateProduct, h]
  · intro n hn; simp [updateProduct, hn]
  · intro h; simp [updateProduct, h]
  · intro h; simp [updateProduct, jsOrStr, h]
  · intro l hl; simp [updateProduct, jsOrAlways, hl]

/-- A body supplying falsy `featured`/`stock` values and a truthy price. -/
def falsyFlagsBody : UpdateBody :=
  { featured := some false, stock := some 0, price := some (JsNum.num 55) }

/-- Witness for C9 (amended): supplied `featured := false` and `stock := 0`
do overwrite, a truthy price overwrites, and an unsupplied name is kept. -/
theorem updateProduct_partial_semantics_witness :
    (updateProduct falsyFlagsBody stalePricedProduct).featured = false ∧
    (updateProduct falsyFlagsBody stalePricedProduct).stock = 0 ∧
    (updateProduct falsyFlagsBody stalePricedProduct).price = 55 ∧
    (updateProduct falsyFlagsBody stalePricedProduct).name
      = stalePricedProduct.name := by
  obtain ⟨h1, h2, h3, h4, h5, h6, h7, h8, h9, h10, h11, h12, h13, h14, h15, h16, h17⟩ :=
    updateProduct_partial_semantics falsyFlagsBody stalePricedProduct
  exact ⟨h8 false rfl, h10 0 rfl, h4 55 rfl (by norm_num), h1 rfl⟩

/-- C10: a `featured` parameter present with any non-empty value constrains
the product's `featured` flag to equal `(value == "true")` — so `"false"`,
`"1"` or `"yes"` restrict the listing to non-featured products — while an
absent or empty parameter adds no featured constraint at all. -/
theorem getProducts_featured_filter (ps : QueryParams) (s : String) (p : Product) :
    (ps.featured = some s → s ≠ "" →
      ((buildQuery ps).featured = some (s == "true") ∧
        (matchesQuery (buildQuery ps) p = true → p.featured = (s == "true")))) ∧
    ((ps.featured = none ∨ ps.featured = some "") →
      ((buildQuery ps).featured = none ∧
        ∀ bv, matchesQuery (buildQuery ps) { p with featured := bv }
            = matchesQuery (buildQuery ps) p)) := by
  constructor
  · intro hs hne
    have hF : (buildQuery ps).featured = some (s == "true") := by
      simp [buildQuery, optTruthy, hs, hne]
    refine ⟨hF, ?_⟩
    intro h
    simp only [matchesQuery, hF, Bool.and_eq_true] at h
    obtain ⟨⟨⟨⟨⟨-, hfeat⟩, -⟩, -⟩, -⟩, -⟩ := h
    exact beq_iff_eq.mp hfeat
  · intro hs
    have hF : (buildQuery ps).featured = none := by
      rcases hs with h | h <;> simp [buildQuery, optTruthy, h]
    refine ⟨hF, ?_⟩
    intro bv
    simp only [matchesQuery, hF]
    rfl

/-- Witness for C10: `featured=false` constrains the filter to
non-featured products; an absent parameter adds no constraint. -/
theorem getProducts_featured_filter_witness :
    (buildQuery { featured := some "false" }).featured = some false ∧
    (buildQuery ({} : QueryParams)).featured = none :=
  ⟨by
    have h := (getProducts_featured_filter { featured := some "false" } "false"
      freshProduct).1 rfl (by decide)
    simpa using h.1,
    ((getProducts_featured_filter ({} : QueryParams) "x" freshProduct).2
      (Or.inl rfl)).1⟩
